import Mathlib

/-!
Verification of the FPD daily monitor (src/fpd_daily.py) against its
natural-language specification.

The development shallowly embeds the data pipeline of the dashboard:

* the DuckDB query of `get_main_data` (date parsing with `strptime`
  '%d/%m/%Y', the CASE expressions producing `fpd_num`/`np_num`,
  COALESCE of the dimensional columns, the conditionally concatenated
  `IN (...)` filters, and the `WHERE fecha_dt IS NOT NULL` drop);
* the global working-set filter `df_fpd = df_main[cosecha_id < max]`;
* the grouped aggregation `df_t` with `%FPD` and `np_rate` columns;
* the current/prior cosecha selection (`iloc[-1]` / `iloc[-2]`);
* the executive query `get_executive_data` with its NOMINA exclusions
  and the `cosecha_id < max_c_real` truncation of `render_exec_block`;
* the rate-ascending ranking sort of `render_exec_block`;
* the `pd.cut` amount bucketing of the insights tab;
* the export tab's record selection, projection and CSV serialization.

Dates are records of year/month/day; machine floats of the source carry
only counts and ratios of counts here, so they are modelled as `ℚ`.
Cosecha keys ('YYYYMM' strings in the source, fixed width and
zero padded, hence ordered as their numeric value) are modelled as
`year * 100 + month : Nat`.  Fallible parsing is `Except String`:
DuckDB's `strptime` raises on unparseable non-NULL text (`TRY_CAST`
guards only the timestamp-to-date cast), while NULL input yields NULL.
-/

/-- A calendar date as parsed from the `fecha_apertura` column. -/
structure Fecha where
  year : Nat
  month : Nat
  day : Nat
deriving DecidableEq, Repr

/-- Gregorian leap year rule, as DuckDB's date validation applies it. -/
def isLeap (y : Nat) : Bool :=
  (y % 4 == 0 && y % 100 != 0) || y % 400 == 0

/-- Number of days of month `m` of year `y`. -/
def daysInMonth (y m : Nat) : Nat :=
  if m = 2 then (if isLeap y then 29 else 28)
  else if m = 4 ∨ m = 6 ∨ m = 9 ∨ m = 11 then 30
  else 31

/-- A (year, month, day) triple that is an actual calendar date. -/
def validDate (y m d : Nat) : Bool :=
  decide (1 ≤ m) && decide (m ≤ 12) && decide (1 ≤ d) && decide (d ≤ daysInMonth y m)

/-- Chronological order on dates (year, then month, then day). -/
def fechaLE (a b : Fecha) : Bool :=
  decide (a.year < b.year) ||
    (decide (a.year = b.year) &&
      (decide (a.month < b.month) ||
        (decide (a.month = b.month) && decide (a.day ≤ b.day))))

/-- Split a character list at every '/' (the literal separator of the
source's date format '%d/%m/%Y'). -/
def splitSlash : List Char → List (List Char)
  | [] => [[]]
  | c :: rest =>
    let r := splitSlash rest
    if c = '/' then [] :: r
    else
      match r with
      | h :: t => (c :: h) :: t
      | [] => [[c]]

/-- Decimal value of one digit character, none for a non-digit. -/
def digitVal (c : Char) : Option Nat :=
  if decide ('0' ≤ c) && decide (c ≤ '9') then some (c.toNat - 48) else none

/-- A nonempty all-digit character list as a number, none otherwise. -/
def parseNatChars (cs : List Char) : Option Nat :=
  if cs.isEmpty then none
  else cs.foldl (fun acc c => acc.bind (fun a => (digitVal c).map (fun d => a * 10 + d))) (some 0)

/-- DuckDB's `strptime(text, '%d/%m/%Y')`: three numeric fields separated
by '/', validated as a calendar date.  On any mismatch it raises (the
source's `TRY_CAST` guards only the later timestamp-to-date cast, not
this parse), modelled as `Except.error`. -/
def strptimeDMY (s : String) : Except String Fecha :=
  match (splitSlash s.toList).map parseNatChars with
  | [some d, some m, some y] =>
    if validDate y m d then Except.ok ⟨y, m, d⟩
    else Except.error ("Could not parse string " ++ s)
  | _ => Except.error ("Could not parse string " ++ s)

/-- Cosecha (vintage) key of a date: the source's `strftime(fecha_dt, '%Y%m')`,
a fixed-width zero-padded string whose lexicographic order is the numeric
order of `year * 100 + month`. -/
def cosechaOf (d : Fecha) : Nat :=
  d.year * 100 + d.month

/-- One raw row of `fpd_gemini.parquet`: every column the queries read,
with NULLable columns as `Option`. -/
structure RawRow where
  fecha_apertura : Option String
  fpd2 : Option String
  np : Option String
  id_credito : Nat
  id_segmento : String
  id_producto : String
  origen2 : Option String
  monto_otorgado : Option ℚ
  cuota : Option ℚ
  tipo_cliente : Option String
  sucursal : Option String
  unidad_regional : Option String
  producto_agrupado : Option String
deriving DecidableEq, Repr

/-- The SQL `COALESCE(col, 'N/A')` applied to a dimensional column. -/
def coalesce (o : Option String) : String :=
  o.getD "N/A"

/-- One row of the `base` CTE of `get_main_data`: the parsed (possibly
NULL) date plus the raw and coalesced columns the query selects. -/
structure BaseRow where
  fecha_dt : Option Fecha
  fpd2 : Option String
  np : Option String
  id_credito : Nat
  id_segmento : String
  id_producto : String
  origen2 : Option String
  monto_otorgado : Option ℚ
  cuota : Option ℚ
  tipo_cliente : String
  sucursal : String
  unidad_regional : String
  producto_agrupado : String
deriving DecidableEq, Repr

/-- One row of `df_main`: a `base` row whose `fecha_dt` is not NULL
(the query's final `WHERE fecha_dt IS NOT NULL`). -/
structure MainRow where
  fecha_dt : Fecha
  fpd2 : Option String
  np : Option String
  id_credito : Nat
  id_segmento : String
  id_producto : String
  origen2 : Option String
  monto_otorgado : Option ℚ
  cuota : Option ℚ
  tipo_cliente : String
  sucursal : String
  unidad_regional : String
  producto_agrupado : String
deriving DecidableEq, Repr

/-- The `CASE WHEN fpd2 = 'FPD' THEN 1 ELSE 0 END` column (a NULL `fpd2`
compares unequal, giving 0). -/
def MainRow.fpdNum (r : MainRow) : Nat :=
  if r.fpd2 = some "FPD" then 1 else 0

/-- The `CASE WHEN NP = 'NP' THEN 1 ELSE 0 END` column. -/
def MainRow.npNum (r : MainRow) : Nat :=
  if r.np = some "NP" then 1 else 0

/-- Cosecha key of a `df_main` row (`strftime(fecha_dt, '%Y%m')`). -/
def MainRow.cosechaId (r : MainRow) : Nat :=
  cosechaOf r.fecha_dt

/-- The `base` CTE on one raw row: `strptime` runs only on non-NULL date
text and raises (error) on unparseable text; NULL stays NULL. -/
def parseBase (r : RawRow) : Except String BaseRow :=
  match r.fecha_apertura with
  | none =>
    Except.ok ⟨none, r.fpd2, r.np, r.id_credito, r.id_segmento, r.id_producto,
      r.origen2, r.monto_otorgado, r.cuota, coalesce r.tipo_cliente,
      coalesce r.sucursal, coalesce r.unidad_regional, coalesce r.producto_agrupado⟩
  | some s =>
    match strptimeDMY s with
    | Except.error e => Except.error e
    | Except.ok d =>
      Except.ok ⟨some d, r.fpd2, r.np, r.id_credito, r.id_segmento, r.id_producto,
        r.origen2, r.monto_otorgado, r.cuota, coalesce r.tipo_cliente,
        coalesce r.sucursal, coalesce r.unidad_regional, coalesce r.producto_agrupado⟩

/-- Evaluate a fallible per-row function over a list of rows, propagating
the first error, as a query evaluating an expression on every row does. -/
def collectE (f : α → Except String β) : List α → Except String (List β)
  | [] => Except.ok []
  | x :: xs =>
    match f x, collectE f xs with
    | Except.ok b, Except.ok bs => Except.ok (b :: bs)
    | Except.error e, _ => Except.error e
    | Except.ok _, Except.error e => Except.error e

/-- One conditionally concatenated filter clause of `get_main_data`: an
empty selection list produces no `AND col IN (...)` clause at all (the
Python `if lista` guard), so every row passes. -/
def passDim (allowed : List String) (v : String) : Bool :=
  if allowed.isEmpty then true else allowed.contains v

/-- The `filtrado` CTE's WHERE clause: the conjunction of the four
optional dimensional clauses. -/
def passDims (reg suc prod tip : List String) (b : BaseRow) : Bool :=
  passDim reg b.unidad_regional && passDim suc b.sucursal &&
    passDim prod b.producto_agrupado && passDim tip b.tipo_cliente

/-- Keep a `base` row whose parsed date is not NULL
(`WHERE fecha_dt IS NOT NULL`), as a `df_main` row. -/
def toMainRow (b : BaseRow) : Option MainRow :=
  match b.fecha_dt with
  | none => none
  | some d =>
    some ⟨d, b.fpd2, b.np, b.id_credito, b.id_segmento, b.id_producto,
      b.origen2, b.monto_otorgado, b.cuota, b.tipo_cliente, b.sucursal,
      b.unidad_regional, b.producto_agrupado⟩

/-- The whole of `get_main_data`: base (parse), filtrado (dimensional
clauses), then the non-NULL date restriction. -/
def getMainData (reg suc prod tip : List String) (rows : List RawRow) :
    Except String (List MainRow) :=
  match collectE parseBase rows with
  | Except.error e => Except.error e
  | Except.ok base => Except.ok ((base.filter (passDims reg suc prod tip)).filterMap toMainRow)

/-- The same query with no dimensional clause at all: base then the
non-NULL date restriction only. -/
def dateOnlyData (rows : List RawRow) : Except String (List MainRow) :=
  match collectE parseBase rows with
  | Except.error e => Except.error e
  | Except.ok base => Except.ok (base.filterMap toMainRow)

/-- `df_main['cosecha_id'].max()`: the largest cosecha key of the loaded
data (0 for an empty frame, which the source guards against). -/
def maxCosecha (main : List MainRow) : Nat :=
  (main.map MainRow.cosechaId).foldr max 0

/-- The global working set `df_fpd = df_main[df_main['cosecha_id'] < max_c_real]`:
every record of the most recent cosecha of the loaded data is dropped. -/
def dfFpd (main : List MainRow) : List MainRow :=
  main.filter (fun r => decide (MainRow.cosechaId r < maxCosecha main))

/-- Insert a key into an ascending duplicate-free list, keeping it
ascending and duplicate free. -/
def insertSortedNat (x : Nat) : List Nat → List Nat
  | [] => [x]
  | y :: ys =>
    if x < y then x :: y :: ys
    else if x = y then y :: ys
    else y :: insertSortedNat x ys

/-- The ascending list of distinct values of a list of keys: pandas
sorts group keys ascending, and `sorted(unique)` does the same. -/
def sortedUnique (l : List Nat) : List Nat :=
  l.foldr insertSortedNat []

/-- The source's `lista_cosechas = sorted(df_fpd['cosecha_id'].unique())`. -/
def listaCosechas (rs : List MainRow) : List Nat :=
  sortedUnique (rs.map MainRow.cosechaId)

/-- One row of the grouped aggregate `df_t` (the `agg` output plus the
`%FPD` and `np_rate` columns, here `fpdRate` and `npRate`). -/
structure AggRow where
  cosecha_id : Nat
  id_credito : Nat
  fpd_num : Nat
  np_num : Nat
  fpdRate : ℚ
  npRate : ℚ
deriving DecidableEq, Repr

/-- The rate `outcomes * 100 / total` of the source, as the rational
`mkRat (s * 100) n`; `rate_eq_div` below states the two agree. -/
def rateOf (s n : Nat) : ℚ :=
  mkRat (s * 100) n

/-- The aggregate row of one cosecha group: count of `id_credito`, sums
of `fpd_num` and `np_num`, and the two `count * 100 / total` rates. -/
def aggGroup (c : Nat) (rs : List MainRow) : AggRow :=
  let g := rs.filter (fun r => decide (MainRow.cosechaId r = c))
  { cosecha_id := c
    id_credito := g.length
    fpd_num := (g.map MainRow.fpdNum).sum
    np_num := (g.map MainRow.npNum).sum
    fpdRate := rateOf (g.map MainRow.fpdNum).sum g.length
    npRate := rateOf (g.map MainRow.npNum).sum g.length }

/-- The aggregate `df_t = df_fpd.groupby('cosecha_id').agg(...)` with its
rate columns: one row per distinct cosecha key, keys ascending. -/
def dfT (rs : List MainRow) : List AggRow :=
  (sortedUnique (rs.map MainRow.cosechaId)).map (fun c => aggGroup c rs)

/-- The current/prior selection `ult = xs.iloc[-1]; ant = xs.iloc[-2] if
len(xs) > 1 else ult`, total on nonempty input (none models the source's
emptiness guard, behind which the indexing never runs). -/
def lastTwo (l : List α) : Option (α × α) :=
  match l.getLast? with
  | none => none
  | some u => some (u, if 1 < l.length then l.getD (l.length - 2) u else u)

/-- One row of the executive aggregate of `get_executive_data`. -/
structure ExecRow where
  cosecha_id : Nat
  dimension : String
  total_vol : Nat
  fpd_si : Nat
  fpd_rate : ℚ
deriving DecidableEq, Repr

/-- The ranking sort of `render_exec_block`, `sort_values('fpd_rate')`
with pandas' default sort kind ('quicksort', documented as not stable):
all the program guarantees is that the output is some permutation of
the input that ascends by `fpd_rate`; the order among rows of equal
rate is implementation defined, so the sort is modelled as this
contract — the relation between an input and an admissible output —
rather than as one concrete algorithm. -/
def isRateSorted (l out : List ExecRow) : Prop :=
  out.Perm l ∧ List.Pairwise (fun a b => a.fpd_rate ≤ b.fpd_rate) out

/-- The amount bucketing of the insights tab:
`pd.cut(monto, bins=[0, 3000, 5000, 8000, 12000, 20000, inf], include_lowest=True)`.
pandas cuts right-closed intervals `(lo, hi]`, and `include_lowest` closes
the first one at 0; an amount below every edge yields NaN, here `none`. -/
def rango (x : ℚ) : Option (Fin 6) :=
  if x < 0 then none
  else if x ≤ 3000 then some 0
  else if x ≤ 5000 then some 1
  else if x ≤ 8000 then some 2
  else if x ≤ 12000 then some 3
  else if x ≤ 20000 then some 4
  else some 5

/-- Modelled from the spec: the bucketing the claim describes, every bin
half-open `[lo, hi)` with the first closed at 0.  Stated only to compare
with `rango`, the bucketing the source performs. -/
def rangoClaim (x : ℚ) : Option (Fin 6) :=
  if x < 0 then none
  else if x < 3000 then some 0
  else if x < 5000 then some 1
  else if x < 8000 then some 2
  else if x < 12000 then some 3
  else if x < 20000 then some 4
  else some 5

/-- Whether a prefix of the second list is the first list. -/
def charsStartWith : List Char → List Char → Bool
  | [], _ => true
  | _ :: _, [] => false
  | p :: ps, c :: cs => p == c && charsStartWith ps cs

/-- Whether the first list occurs contiguously inside the second. -/
def charsContain (pat : List Char) : List Char → Bool
  | [] => pat.isEmpty
  | c :: cs => charsStartWith pat (c :: cs) || charsContain pat cs

/-- The SQL `UPPER(p) LIKE '%NOMINA%'` test of `get_executive_data`. -/
def containsNomina (p : String) : Bool :=
  charsContain "NOMINA".toList (p.toList.map Char.toUpper)

/-- The WHERE clause of the executive query's base CTE:
`UPPER(producto_agrupado) NOT LIKE '%NOMINA%' AND sucursal != '999.EMPRESA
NOMINA COLABORADORES'`.  A NULL in either column makes the SQL predicate
NULL, so the row is dropped. -/
def execKeep (r : RawRow) : Bool :=
  match r.producto_agrupado, r.sucursal with
  | some p, some s =>
    !(containsNomina p) && !(s == "999.EMPRESA NOMINA COLABORADORES")
  | _, _ => false

/-- The per-record data the executive aggregation groups: cosecha key,
coalesced chosen dimension, and the `fpd_num` CASE column. -/
structure ExecBase where
  cosecha : Nat
  dimension : String
  fpdNum : Nat
deriving DecidableEq, Repr

/-- The executive base CTE on one kept row: parse the date (raising on
unparseable non-NULL text, as `strptime` does), coalesce the chosen
dimension column, compute `fpd_num`. NULL dates survive to the later
`WHERE fecha_dt IS NOT NULL`, modelled by the `Option`. -/
def execParseRow (fld : RawRow → Option String) (r : RawRow) :
    Except String (Option ExecBase) :=
  match r.fecha_apertura with
  | none => Except.ok none
  | some s =>
    match strptimeDMY s with
    | Except.error e => Except.error e
    | Except.ok d =>
      Except.ok (some ⟨cosechaOf d, coalesce (fld r), if r.fpd2 = some "FPD" then 1 else 0⟩)

/-- Drop later duplicates, keeping the first occurrence of each element. -/
def dedupFirstAux [DecidableEq α] (seen : List α) : List α → List α
  | [] => []
  | x :: xs => if x ∈ seen then dedupFirstAux seen xs else x :: dedupFirstAux (x :: seen) xs

/-- The distinct elements of a list in order of first appearance. -/
def dedupFirst [DecidableEq α] (l : List α) : List α :=
  dedupFirstAux [] l

/-- Stable insertion by cosecha key, for `ORDER BY cosecha_id ASC` over
(cosecha, dimension) group keys (the order among equal cosechas is not
fixed by the query; first appearance is kept here). -/
def insertPairByC (x : Nat × String) : List (Nat × String) → List (Nat × String)
  | [] => [x]
  | y :: ys => if x.1 ≤ y.1 then x :: y :: ys else y :: insertPairByC x ys

/-- Sort (cosecha, dimension) keys ascending by cosecha, stably. -/
def sortPairsByCosecha (l : List (Nat × String)) : List (Nat × String) :=
  l.foldr insertPairByC []

/-- The whole of `get_executive_data(field)`: the NOMINA/999 WHERE clause,
the base parse, the NULL-date drop, and the grouped count/sum/rate per
(cosecha_id, dimension), ordered by cosecha.  The sidebar filter
selections are not among its inputs. -/
def getExecutiveData (fld : RawRow → Option String) (rows : List RawRow) :
    Except String (List ExecRow) :=
  match collectE (execParseRow fld) (rows.filter execKeep) with
  | Except.error e => Except.error e
  | Except.ok parsed =>
    let dated := parsed.filterMap id
    let keys := sortPairsByCosecha (dedupFirst (dated.map (fun b => (b.cosecha, b.dimension))))
    Except.ok (keys.map (fun k =>
      let g := dated.filter (fun b => decide (b.cosecha = k.1) && decide (b.dimension = k.2))
      { cosecha_id := k.1
        dimension := k.2
        total_vol := g.length
        fpd_si := (g.map ExecBase.fpdNum).sum
        fpd_rate := rateOf (g.map ExecBase.fpdNum).sum g.length }))

/-- The executive block's working frame,
`df_e = df_e_raw[df_e_raw['cosecha_id'] < max_c_real]`: the raw executive
aggregate truncated below a cutoff that the caller computes as the
maximum cosecha of the dimension-filtered `df_main`. -/
def dfE (fld : RawRow → Option String) (rows : List RawRow) (maxC : Nat) :
    Except String (List ExecRow) :=
  match getExecutiveData fld rows with
  | Except.error e => Except.error e
  | Except.ok l => Except.ok (l.filter (fun e => decide (e.cosecha_id < maxC)))

/-- The column `unidad_regional`, as a dimension argument of the
executive query. -/
def selRegional (r : RawRow) : Option String :=
  r.unidad_regional

/-- One exported row: the fixed column subset of the export tab,
`cosecha_id` renamed to `cosecha`. -/
structure ExpRow where
  id_credito : Nat
  id_segmento : String
  id_producto : String
  producto_agrupado : String
  origen2 : Option String
  cosecha : Nat
  monto_otorgado : Option ℚ
  cuota : Option ℚ
  sucursal : String
deriving DecidableEq, Repr

/-- Projection of a `df_main` row to the export columns. -/
def exportCols (r : MainRow) : ExpRow :=
  ⟨r.id_credito, r.id_segmento, r.id_producto, r.producto_agrupado, r.origen2,
    MainRow.cosechaId r, r.monto_otorgado, r.cuota, r.sucursal⟩

/-- The export tab's record selection
`df_main[(df_main['cosecha_id'] == cosecha_export) & (df_main['fpd2'] == 'FPD')]`
projected to the fixed column list.  It reads `df_main`, not `df_fpd`. -/
def dfExp (c : Nat) (main : List MainRow) : List ExpRow :=
  (main.filter (fun r => decide (MainRow.cosechaId r = c) && r.fpd2 == some "FPD")).map exportCols

/-- The export tab's choice list
`sorted(df_main['cosecha_id'].unique(), reverse=True)[:2]`: the two most
recent cosechas of the loaded data, the most recent first. -/
def listaExport (main : List MainRow) : List Nat :=
  (sortedUnique (main.map MainRow.cosechaId)).reverse.take 2

/-- Header line of the exported CSV. -/
def expHeader : String :=
  "id_credito,id_segmento,id_producto,producto_agrupado,origen2,cosecha,monto_otorgado,cuota,sucursal"

/-- Render an optional numeric cell the way an absent value exports: empty. -/
def cellQ (o : Option ℚ) : String :=
  match o with
  | none => ""
  | some q => toString q

/-- Render an optional text cell: empty when absent. -/
def cellS (o : Option String) : String :=
  o.getD ""

/-- One CSV line of an exported row: its cells joined by commas. -/
def expLine (e : ExpRow) : String :=
  String.intercalate "," [toString e.id_credito, e.id_segmento, e.id_producto,
    e.producto_agrupado, cellS e.origen2, toString e.cosecha,
    cellQ e.monto_otorgado, cellQ e.cuota, e.sucursal]

/-- The delimited-text serialization of the export (`to_csv`): the header
line and one line per row, newline separated. -/
def toCsv (l : List ExpRow) : String :=
  String.intercalate "\x0a" (expHeader :: l.map expLine)

/-- Modelled from the spec: subtraction of two calendar months from an
as-of date, the arithmetic the claimed maturity window performs. -/
def minusTwoMonths (asOf : Fecha) : Fecha :=
  if 2 < asOf.month then ⟨asOf.year, asOf.month - 2, asOf.day⟩
  else ⟨asOf.year - 1, asOf.month + 10, asOf.day⟩

/-- Modelled from the spec: the claimed maturity test, a record is mature
iff its origination date is at most `as_of` minus two calendar months.
Stated only to compare with the working-set filter the source performs. -/
def matureSpec (d asOf : Fecha) : Bool :=
  fechaLE d (minusTwoMonths asOf)

/-- Decidable equality of fallible results, for evaluating the pipeline
at concrete inputs. -/
instance {ε α : Type} [DecidableEq ε] [DecidableEq α] : DecidableEq (Except ε α) :=
  fun a b =>
    match a, b with
    | Except.error e, Except.error f =>
      if h : e = f then isTrue (by rw [h]) else isFalse (fun hh => h (Except.error.inj hh))
    | Except.error _, Except.ok _ => isFalse (fun hh => Except.noConfusion hh)
    | Except.ok _, Except.error _ => isFalse (fun hh => Except.noConfusion hh)
    | Except.ok x, Except.ok y =>
      if h : x = y then isTrue (by rw [h]) else isFalse (fun hh => h (Except.ok.inj hh))

/-- The rate value is the `outcomes * 100 / total` of the source's
dataframe expressions, read in `ℚ`. -/
theorem rate_eq_div (s n : Nat) : rateOf s n = ((s : ℚ) * 100) / (n : ℚ) := by
  rw [rateOf, Rat.mkRat_eq_div]
  push_cast
  ring

/-- A rate is never negative. -/
theorem rateOf_nonneg (s n : Nat) : 0 ≤ rateOf s n := by
  rw [rate_eq_div]
  exact div_nonneg (by positivity) (Nat.cast_nonneg n)

/-- A rate of at most as many outcomes as records is at most 100. -/
theorem rateOf_le_100 (s n : Nat) (h : s ≤ n) : rateOf s n ≤ 100 := by
  rw [rate_eq_div]
  rcases Nat.eq_zero_or_pos n with h0 | h0
  · subst h0
    simp
  · rw [div_le_iff₀ (by exact_mod_cast h0)]
    calc ((s : ℚ)) * 100 ≤ (n : ℚ) * 100 := by
          have : (s : ℚ) ≤ (n : ℚ) := by exact_mod_cast h
          nlinarith
      _ = 100 * (n : ℚ) := by ring

/-- A rate of zero outcomes is zero. -/
theorem rateOf_zero (n : Nat) : rateOf 0 n = 0 := by
  rw [rateOf]
  norm_num [Rat.zero_mkRat]

/-- Membership in an `insertSortedNat` insertion. -/
theorem mem_insertSortedNat (x y : Nat) (l : List Nat) :
    x ∈ insertSortedNat y l ↔ x = y ∨ x ∈ l := by
  induction l with
  | nil => simp [insertSortedNat]
  | cons z zs ih =>
    by_cases h1 : y < z
    · simp [insertSortedNat, h1]
    · by_cases h2 : y = z
      · subst h2
        rw [insertSortedNat, if_neg h1, if_pos rfl]
        simp only [List.mem_cons]
        tauto
      · rw [insertSortedNat, if_neg h1, if_neg h2]
        simp only [List.mem_cons, ih]
        tauto

/-- `sortedUnique` has the same members as its input. -/
theorem mem_sortedUnique (x : Nat) (l : List Nat) : x ∈ sortedUnique l ↔ x ∈ l := by
  induction l with
  | nil => simp [sortedUnique]
  | cons a as ih =>
    show x ∈ insertSortedNat a (sortedUnique as) ↔ _
    rw [mem_insertSortedNat, ih]
    simp [List.mem_cons]

/-- `sortedUnique` of a nonempty list is nonempty. -/
theorem sortedUnique_ne_nil (l : List Nat) (h : l ≠ []) : sortedUnique l ≠ [] := by
  cases l with
  | nil => exact absurd rfl h
  | cons a as =>
    exact List.ne_nil_of_mem ((mem_sortedUnique a (a :: as)).mpr (by simp))

/-- A sum of 0/1 summands is at most the number of summands. -/
theorem sum_map_le_length {α : Type} (f : α → Nat) (l : List α) (h : ∀ x ∈ l, f x ≤ 1) :
    (l.map f).sum ≤ l.length := by
  induction l with
  | nil => simp
  | cons a as ih =>
    simp only [List.map_cons, List.sum_cons, List.length_cons]
    have ha := h a (by simp)
    have hs := ih (fun x hx => h x (by simp [hx]))
    omega

/-- A fold by `max` over a constant nonempty list is that constant. -/
theorem foldr_max_const (l : List Nat) (c : Nat) (h : ∀ x ∈ l, x = c) (hne : l ≠ []) :
    l.foldr max 0 = c := by
  induction l with
  | nil => exact absurd rfl hne
  | cons a as ih =>
    by_cases hA : as = []
    · subst hA
      simp [h a (by simp)]
    · simp only [List.foldr_cons]
      rw [ih (fun x hx => h x (by simp [hx])) hA, h a (by simp)]
      exact Nat.max_self c

/-- The last-and-previous selection on a nonempty list: the pair exists,
its first component is the last element, its second the one before it
(or the last again on a singleton). -/
theorem lastTwo_spec {α : Type} (l : List α) (h : l ≠ []) :
    ∃ u a, lastTwo l = some (u, a) ∧ l.getLast? = some u ∧
      a = if 1 < l.length then l.getD (l.length - 2) u else u := by
  have hg : l.getLast? = some (l.getLast h) := List.getLast?_eq_getLast l h
  refine ⟨l.getLast h, _, ?_, hg, rfl⟩
  rw [lastTwo, hg]

/-- In a rate-sorted list the head's rate is minimal. -/
theorem sorted_head_min (l : List ExecRow)
    (hs : List.Pairwise (fun a b => a.fpd_rate ≤ b.fpd_rate) l) :
    ∀ u ∈ l.head?, ∀ y ∈ l, u.fpd_rate ≤ y.fpd_rate := by
  cases l with
  | nil => simp
  | cons b t =>
    intro u hu y hy
    have hub : b = u := by simpa using hu
    subst hub
    rw [List.pairwise_cons] at hs
    rcases List.mem_cons.mp hy with rfl | hy'
    · exact le_refl _
    · exact hs.1 y hy'

/-- In a rate-sorted list the last element's rate is maximal. -/
theorem sorted_last_max (l : List ExecRow)
    (hs : List.Pairwise (fun a b => a.fpd_rate ≤ b.fpd_rate) l) :
    ∀ w ∈ l.getLast?, ∀ y ∈ l, y.fpd_rate ≤ w.fpd_rate := by
  induction l with
  | nil => simp
  | cons b t ih =>
    intro w hw y hy
    rw [List.pairwise_cons] at hs
    cases t with
    | nil =>
      have hwb : b = w := by simpa using hw
      subst hwb
      rcases List.mem_cons.mp hy with rfl | hy'
      · exact le_refl _
      · exact absurd hy' (List.not_mem_nil y)
    | cons c cs =>
      have hw' : (c :: cs).getLast? = some w := by
        simpa [List.getLast?_cons_cons] using hw
      rcases List.mem_cons.mp hy with rfl | hy'
      · exact hs.1 w (List.mem_of_mem_getLast? hw')
      · exact ih hs.2 w hw' y hy'

/-- The rate columns of an aggregate row are the rates of its counts. -/
theorem aggGroup_rate_def (c : Nat) (rs : List MainRow) :
    (aggGroup c rs).fpdRate = rateOf (aggGroup c rs).fpd_num (aggGroup c rs).id_credito ∧
    (aggGroup c rs).npRate = rateOf (aggGroup c rs).np_num (aggGroup c rs).id_credito :=
  ⟨rfl, rfl⟩

/-- A loaded record fixture: a row of `df_main` with the given
origination date, outcome and regional, the remaining columns fixed. -/
def demoMain (y m d : Nat) (fpd : Bool) (reg : String) : MainRow :=
  { fecha_dt := ⟨y, m, d⟩
    fpd2 := if fpd then some "FPD" else some "ok"
    np := none
    id_credito := 1
    id_segmento := "S1"
    id_producto := "P1"
    origen2 := some "WEB"
    monto_otorgado := some 1000
    cuota := some 100
    tipo_cliente := "Nuevo"
    sucursal := "A1"
    unidad_regional := reg
    producto_agrupado := "PRESTAMO" }

/-- A two-cosecha loaded dataset: one defaulted record of 2024-01 and
one of 2024-02 (the maximum cosecha of the dataset). -/
def demoTwo : List MainRow :=
  [demoMain 2024 1 10 true "A", demoMain 2024 2 10 true "B"]

/-- A three-record loaded dataset over cosechas 2024-01 and 2024-02. -/
def demoRows : List MainRow :=
  [demoMain 2024 1 5 true "A", demoMain 2024 1 6 false "A", demoMain 2024 2 10 true "B"]

/-- C1, counterexample: with the loaded data `demoTwo` and the as-of
instant 2024-05-15, the 2024-02-10 record is mature under the claimed
two-calendar-month window (2024-02-10 is at most 2024-03-15), yet the
working set excludes it: its cosecha is the maximum of the dataset, and
the source filters by `cosecha_id < max`, not by any as-of arithmetic. -/
theorem c1_counterexample :
    matureSpec (demoMain 2024 2 10 true "B").fecha_dt ⟨2024, 5, 15⟩ = true ∧
    demoMain 2024 2 10 true "B" ∈ demoTwo ∧
    demoMain 2024 2 10 true "B" ∉ dfFpd demoTwo := by
  decide

/-- C1, amended: a record enters the aggregation working set `df_fpd`
iff it is a loaded record whose cosecha key is strictly below the
maximum cosecha key of the loaded data; the exclusion is complete (the
record is absent from the working set, not flagged), and no as-of
instant or two-month window is involved. -/
theorem c1_amended (main : List MainRow) (r : MainRow) :
    r ∈ dfFpd main ↔ r ∈ main ∧ MainRow.cosechaId r < maxCosecha main := by
  rw [dfFpd, List.mem_filter]
  simp

/-- C2: in every row of the grouped aggregate `df_t`, the outcome counts
are at most the record count, both rates lie in [0, 100], and a rate is
zero whenever its outcome count is zero. -/
theorem c2_rate_bounds (rs : List MainRow) (row : AggRow) (h : row ∈ dfT rs) :
    row.fpd_num ≤ row.id_credito ∧ row.np_num ≤ row.id_credito ∧
    0 ≤ row.fpdRate ∧ row.fpdRate ≤ 100 ∧ 0 ≤ row.npRate ∧ row.npRate ≤ 100 ∧
    (row.fpd_num = 0 → row.fpdRate = 0) ∧ (row.np_num = 0 → row.npRate = 0) := by
  rw [dfT] at h
  rcases List.mem_map.mp h with ⟨c, hc, rfl⟩
  obtain ⟨hr1, hr2⟩ := aggGroup_rate_def c rs
  have hf : (aggGroup c rs).fpd_num ≤ (aggGroup c rs).id_credito :=
    sum_map_le_length MainRow.fpdNum _ (fun x _ => by
      rw [MainRow.fpdNum]; split <;> omega)
  have hn : (aggGroup c rs).np_num ≤ (aggGroup c rs).id_credito :=
    sum_map_le_length MainRow.npNum _ (fun x _ => by
      rw [MainRow.npNum]; split <;> omega)
  refine ⟨hf, hn, ?_, ?_, ?_, ?_, ?_, ?_⟩
  · rw [hr1]; exact rateOf_nonneg _ _
  · rw [hr1]; exact rateOf_le_100 _ _ hf
  · rw [hr2]; exact rateOf_nonneg _ _
  · rw [hr2]; exact rateOf_le_100 _ _ hn
  · intro h0; rw [hr1, h0]; exact rateOf_zero _
  · intro h0; rw [hr2, h0]; exact rateOf_zero _

/-- C2, witness: the bounds at the 2024-01 aggregate row of `demoRows`
(2 records, 1 default, rate 50). -/
theorem c2_witness :
    (⟨202401, 2, 1, 0, 50, 0⟩ : AggRow).fpd_num ≤ (⟨202401, 2, 1, 0, 50, 0⟩ : AggRow).id_credito ∧
    (⟨202401, 2, 1, 0, 50, 0⟩ : AggRow).np_num ≤ (⟨202401, 2, 1, 0, 50, 0⟩ : AggRow).id_credito ∧
    0 ≤ (⟨202401, 2, 1, 0, 50, 0⟩ : AggRow).fpdRate ∧
    (⟨202401, 2, 1, 0, 50, 0⟩ : AggRow).fpdRate ≤ 100 ∧
    0 ≤ (⟨202401, 2, 1, 0, 50, 0⟩ : AggRow).npRate ∧
    (⟨202401, 2, 1, 0, 50, 0⟩ : AggRow).npRate ≤ 100 ∧
    ((⟨202401, 2, 1, 0, 50, 0⟩ : AggRow).fpd_num = 0 → (⟨202401, 2, 1, 0, 50, 0⟩ : AggRow).fpdRate = 0) ∧
    ((⟨202401, 2, 1, 0, 50, 0⟩ : AggRow).np_num = 0 → (⟨202401, 2, 1, 0, 50, 0⟩ : AggRow).npRate = 0) :=
  c2_rate_bounds demoRows ⟨202401, 2, 1, 0, 50, 0⟩ (by decide)

/-- C10: the working set `df_fpd` holds no record of the maximum cosecha
of the loaded data; when every loaded record shares one cosecha the
working set is empty, and the grouped aggregate over it has no row (the
source renders its metrics and rankings only behind a nonemptiness
guard on `df_fpd`). -/
theorem c10_exclude_max (main : List MainRow) (h : main ≠ []) :
    (∀ r ∈ dfFpd main, MainRow.cosechaId r ≠ maxCosecha main) ∧
    (∀ c, (∀ r ∈ main, MainRow.cosechaId r = c) →
      dfFpd main = [] ∧ dfT (dfFpd main) = []) := by
  constructor
  · intro r hr
    rw [dfFpd, List.mem_filter] at hr
    have := of_decide_eq_true hr.2
    omega
  · intro c hcc
    have hmap : ∀ x ∈ main.map MainRow.cosechaId, x = c := by
      intro x hx
      rcases List.mem_map.mp hx with ⟨r, hr, rfl⟩
      exact hcc r hr
    have hne : main.map MainRow.cosechaId ≠ [] := by
      intro hmm
      exact h (List.map_eq_nil_iff.mp hmm)
    have hmax : maxCosecha main = c := foldr_max_const _ c hmap hne
    have hnil : dfFpd main = [] := by
      rw [dfFpd, List.filter_eq_nil_iff]
      intro r hr
      simp only [decide_eq_true_eq]
      rw [hcc r hr, hmax]
      omega
    exact ⟨hnil, by rw [hnil]; rfl⟩

/-- C10, witness: a single-cosecha dataset yields an empty working set
and an empty aggregate. -/
theorem c10_witness :
    dfFpd [demoMain 2024 1 5 true "A"] = [] ∧
    dfT (dfFpd [demoMain 2024 1 5 true "A"]) = [] :=
  (c10_exclude_max [demoMain 2024 1 5 true "A"] (by decide)).2 202401 (by decide)

/-- C3: an empty selection for a dimension restricts nothing (its clause
passes every row); the four dimensional clauses compose as a
conjunction; and with all four selections empty the query equals the
query with no dimensional clause at all, so the aggregation over the
working set is the same as over the maturity-filtered-only dataset. -/
theorem c3_filter_identity (reg suc prod tip : List String) (b : BaseRow)
    (rows : List RawRow) :
    passDims [] [] [] [] b = true ∧
    (passDims reg suc prod tip b = true ↔
      (passDim reg b.unidad_regional = true ∧ passDim suc b.sucursal = true ∧
        passDim prod b.producto_agrupado = true ∧ passDim tip b.tipo_cliente = true)) ∧
    getMainData [] [] [] [] rows = dateOnlyData rows ∧
    (getMainData [] [] [] [] rows).map (fun m => dfT (dfFpd m)) =
      (dateOnlyData rows).map (fun m => dfT (dfFpd m)) := by
  have h3 : getMainData [] [] [] [] rows = dateOnlyData rows := by
    cases hc : collectE parseBase rows with
    | error e => simp [getMainData, dateOnlyData, hc]
    | ok base =>
      simp only [getMainData, dateOnlyData, hc]
      have hfs : List.filter (passDims [] [] [] []) base = base :=
        List.filter_eq_self.mpr (fun a _ => rfl)
      rw [hfs]
  refine ⟨rfl, ?_, h3, by rw [h3]⟩
  rw [passDims]
  simp [Bool.and_eq_true, and_assoc]

/-- C4: on a nonempty working set, the grouped aggregate and the cosecha
list are nonempty; the current/prior selection is defined (no index
error), picks the last and the second-to-last entry, collapses to the
last alone on a single-period history; and every aggregate row counts
at least one record, so no rate divides by zero. -/
theorem c4_latest_previous (rs : List MainRow) (h : rs ≠ []) :
    dfT rs ≠ [] ∧ listaCosechas rs ≠ [] ∧
    (∃ u a, lastTwo (dfT rs) = some (u, a) ∧ (dfT rs).getLast? = some u ∧
      a = if 1 < (dfT rs).length then (dfT rs).getD ((dfT rs).length - 2) u else u) ∧
    (∃ u a, lastTwo (listaCosechas rs) = some (u, a) ∧
      (listaCosechas rs).getLast? = some u ∧
      a = if 1 < (listaCosechas rs).length then
        (listaCosechas rs).getD ((listaCosechas rs).length - 2) u else u) ∧
    (∀ l : List AggRow, l.length = 1 → ∀ u a, lastTwo l = some (u, a) → a = u) ∧
    (∀ row ∈ dfT rs, 0 < row.id_credito) := by
  have hmapne : rs.map MainRow.cosechaId ≠ [] := by
    intro hmm
    exact h (List.map_eq_nil_iff.mp hmm)
  have hkeys : sortedUnique (rs.map MainRow.cosechaId) ≠ [] :=
    sortedUnique_ne_nil _ hmapne
  have hdfT : dfT rs ≠ [] := by
    rw [dfT]
    intro hmm
    exact hkeys (List.map_eq_nil_iff.mp hmm)
  refine ⟨hdfT, hkeys, lastTwo_spec _ hdfT, lastTwo_spec _ hkeys, ?_, ?_⟩
  · intro l hl u a hua
    rcases l with _ | ⟨x, _ | ⟨y, ys⟩⟩
    · exact absurd hl (by simp)
    · rw [lastTwo] at hua
      simp only [List.getLast?_singleton, List.length_singleton] at hua
      have hxy := Option.some.inj hua
      simp at hxy
      obtain ⟨h1, h2⟩ := hxy
      subst h1
      subst h2
      rfl
    · rw [List.length_cons, List.length_cons] at hl
      omega
  · intro row hrow
    rw [dfT] at hrow
    rcases List.mem_map.mp hrow with ⟨c, hcmem, rfl⟩
    have hc : c ∈ rs.map MainRow.cosechaId := (mem_sortedUnique _ _).mp hcmem
    rcases List.mem_map.mp hc with ⟨r, hr, rfl⟩
    have hmem : r ∈ rs.filter
        (fun x => decide (MainRow.cosechaId x = MainRow.cosechaId r)) := by
      rw [List.mem_filter]
      exact ⟨hr, by simp⟩
    exact List.length_pos.mpr (List.ne_nil_of_mem hmem)

/-- C4, witness: the selection on the two-cosecha dataset is defined. -/
theorem c4_witness : dfT demoTwo ≠ [] :=
  (c4_latest_previous demoTwo (by decide)).1

/-- An executive aggregate input with two rows of equal rate. -/
def c5demo : List ExecRow :=
  [⟨202401, "X", 10, 5, 50⟩, ⟨202401, "Y", 20, 10, 50⟩]

/-- C5, counterexample: the sort the program runs guarantees only an
ascending-by-rate permutation of its input (pandas' default sort kind
is documented as not stable).  On two rows of equal rate that contract
admits the input-order-reversing output as well as the input-order one,
so tied rates are not broken by input order, and the contract does not
even determine which tied row comes first. -/
theorem c5_counterexample :
    isRateSorted c5demo [⟨202401, "Y", 20, 10, 50⟩, ⟨202401, "X", 10, 5, 50⟩] ∧
    isRateSorted c5demo [⟨202401, "X", 10, 5, 50⟩, ⟨202401, "Y", 20, 10, 50⟩] ∧
    ([⟨202401, "Y", 20, 10, 50⟩, ⟨202401, "X", 10, 5, 50⟩] : List ExecRow) ≠
      [⟨202401, "X", 10, 5, 50⟩, ⟨202401, "Y", 20, 10, 50⟩] ∧
    ([⟨202401, "Y", 20, 10, 50⟩, ⟨202401, "X", 10, 5, 50⟩] : List ExecRow).filter
        (fun e => decide (e.fpd_rate = 50)) ≠
      c5demo.filter (fun e => decide (e.fpd_rate = 50)) := by
  refine ⟨⟨List.Perm.swap _ _ _, ?_⟩, ⟨List.Perm.refl _, ?_⟩, by decide, by decide⟩
  · exact List.Pairwise.cons (fun z hz => by fin_cases hz; decide)
      (List.Pairwise.cons (fun z hz => by fin_cases hz) List.Pairwise.nil)
  · exact List.Pairwise.cons (fun z hz => by fin_cases hz; decide)
      (List.Pairwise.cons (fun z hz => by fin_cases hz) List.Pairwise.nil)

/-- C5, amended: every output the ranking sort's contract admits is an
ascending-by-rate permutation of the aggregate input, so its first row
attains the minimum rate of the input (best) and its last row the
maximum (worst), and it has exactly the input's rows; any two
admissible outputs are permutations of each other agreeing on the
number of rows of every rate — the output is determined up to the
order of tied rates, which the program leaves implementation defined
rather than broken by input order. -/
theorem c5_amended (l out out2 : List ExecRow)
    (h : isRateSorted l out) (h2 : isRateSorted l out2) :
    (∀ u ∈ out.head?, ∀ y ∈ l, u.fpd_rate ≤ y.fpd_rate) ∧
    (∀ w ∈ out.getLast?, ∀ y ∈ l, y.fpd_rate ≤ w.fpd_rate) ∧
    out.length = l.length ∧ (∀ y, y ∈ out ↔ y ∈ l) ∧
    out.Perm out2 ∧
    (∀ q : ℚ, (out.filter (fun e => decide (e.fpd_rate = q))).length =
      (l.filter (fun e => decide (e.fpd_rate = q))).length) := by
  obtain ⟨hp, hs⟩ := h
  refine ⟨?_, ?_, hp.length_eq, fun y => hp.mem_iff, hp.trans h2.1.symm, ?_⟩
  · intro u hu y hy
    exact sorted_head_min out hs u hu y (hp.mem_iff.mpr hy)
  · intro w hw y hy
    exact sorted_last_max out hs w hw y (hp.mem_iff.mpr hy)
  · intro q
    exact (hp.filter (fun e => decide (e.fpd_rate = q))).length_eq

/-- C5, witness: the amended facts at the two-row tied input, with the
reversed output as `out` and the input-order output as `out2`. -/
theorem c5_witness :
    ([⟨202401, "Y", 20, 10, 50⟩, ⟨202401, "X", 10, 5, 50⟩] : List ExecRow).length =
      c5demo.length :=
  (c5_amended c5demo
    [⟨202401, "Y", 20, 10, 50⟩, ⟨202401, "X", 10, 5, 50⟩]
    [⟨202401, "X", 10, 5, 50⟩, ⟨202401, "Y", 20, 10, 50⟩]
    ⟨List.Perm.swap _ _ _,
      List.Pairwise.cons (fun z hz => by fin_cases hz; decide)
        (List.Pairwise.cons (fun z hz => by fin_cases hz) List.Pairwise.nil)⟩
    ⟨List.Perm.refl _,
      List.Pairwise.cons (fun z hz => by fin_cases hz; decide)
        (List.Pairwise.cons (fun z hz => by fin_cases hz) List.Pairwise.nil)⟩).2.2.1

/-- C6, counterexample: the source buckets 3000 into the first bin
(`pd.cut` cuts right-closed intervals, `include_lowest` closing the
first at 0), while the claimed half-open `[lo, hi)` bins put 3000 into
the second bin. -/
theorem c6_counterexample :
    rango 3000 = some 0 ∧ rangoClaim 3000 = some 1 ∧
    rango 3000 ≠ rangoClaim 3000 := by
  decide

/-- C6, amended: over the edges 0, 3000, 5000, 8000, 12000, 20000,
+infinity, every non-negative amount falls in exactly one of the six
bins, the bins being right-closed `(lo, hi]` — the first closed at 0
(`include_lowest`), the last unbounded above. -/
theorem c6_amended (x : ℚ) (h : 0 ≤ x) :
    (∃ i : Fin 6, rango x = some i) ∧
    (∀ i j : Fin 6, rango x = some i → rango x = some j → i = j) ∧
    (rango x = some 0 ↔ 0 ≤ x ∧ x ≤ 3000) ∧
    (rango x = some 1 ↔ 3000 < x ∧ x ≤ 5000) ∧
    (rango x = some 2 ↔ 5000 < x ∧ x ≤ 8000) ∧
    (rango x = some 3 ↔ 8000 < x ∧ x ≤ 12000) ∧
    (rango x = some 4 ↔ 12000 < x ∧ x ≤ 20000) ∧
    (rango x = some 5 ↔ 20000 < x) := by
  have h0 : ¬ x < 0 := not_lt.mpr h
  have huniq : ∀ i j : Fin 6, rango x = some i → rango x = some j → i = j :=
    fun i j hi hj => Option.some.inj (hi.symm.trans hj)
  by_cases h1 : x ≤ 3000
  · have hv : rango x = some 0 := by unfold rango; rw [if_neg h0, if_pos h1]
    refine ⟨⟨0, hv⟩, huniq, iff_of_true hv ⟨h, h1⟩, ?_, ?_, ?_, ?_, ?_⟩
    · exact iff_of_false (by rw [hv]; decide) (fun hc => by linarith [hc.1])
    · exact iff_of_false (by rw [hv]; decide) (fun hc => by linarith [hc.1])
    · exact iff_of_false (by rw [hv]; decide) (fun hc => by linarith [hc.1])
    · exact iff_of_false (by rw [hv]; decide) (fun hc => by linarith [hc.1])
    · exact iff_of_false (by rw [hv]; decide) (fun hc => by linarith [hc])
  · by_cases h2 : x ≤ 5000
    · have hv : rango x = some 1 := by
        unfold rango; rw [if_neg h0, if_neg h1, if_pos h2]
      refine ⟨⟨1, hv⟩, huniq, ?_, iff_of_true hv ⟨by linarith, h2⟩, ?_, ?_, ?_, ?_⟩
      · exact iff_of_false (by rw [hv]; decide) (fun hc => by linarith [hc.2])
      · exact iff_of_false (by rw [hv]; decide) (fun hc => by linarith [hc.1])
      · exact iff_of_false (by rw [hv]; decide) (fun hc => by linarith [hc.1])
      · exact iff_of_false (by rw [hv]; decide) (fun hc => by linarith [hc.1])
      · exact iff_of_false (by rw [hv]; decide) (fun hc => by linarith [hc])
    · by_cases h3 : x ≤ 8000
      · have hv : rango x = some 2 := by
          unfold rango; rw [if_neg h0, if_neg h1, if_neg h2, if_pos h3]
        refine ⟨⟨2, hv⟩, huniq, ?_, ?_, iff_of_true hv ⟨by linarith, h3⟩, ?_, ?_, ?_⟩
        · exact iff_of_false (by rw [hv]; decide) (fun hc => by linarith [hc.2])
        · exact iff_of_false (by rw [hv]; decide) (fun hc => by linarith [hc.2])
        · exact iff_of_false (by rw [hv]; decide) (fun hc => by linarith [hc.1])
        · exact iff_of_false (by rw [hv]; decide) (fun hc => by linarith [hc.1])
        · exact iff_of_false (by rw [hv]; decide) (fun hc => by linarith [hc])
      · by_cases h4 : x ≤ 12000
        · have hv : rango x = some 3 := by
            unfold rango; rw [if_neg h0, if_neg h1, if_neg h2, if_neg h3, if_pos h4]
          refine ⟨⟨3, hv⟩, huniq, ?_, ?_, ?_, iff_of_true hv ⟨by linarith, h4⟩, ?_, ?_⟩
          · exact iff_of_false (by rw [hv]; decide) (fun hc => by linarith [hc.2])
          · exact iff_of_false (by rw [hv]; decide) (fun hc => by linarith [hc.2])
          · exact iff_of_false (by rw [hv]; decide) (fun hc => by linarith [hc.2])
          · exact iff_of_false (by rw [hv]; decide) (fun hc => by linarith [hc.1])
          · exact iff_of_false (by rw [hv]; decide) (fun hc => by linarith [hc])
        · by_cases h5 : x ≤ 20000
          · have hv : rango x = some 4 := by
              unfold rango
              rw [if_neg h0, if_neg h1, if_neg h2, if_neg h3, if_neg h4, if_pos h5]
            refine ⟨⟨4, hv⟩, huniq, ?_, ?_, ?_, ?_, iff_of_true hv ⟨by linarith, h5⟩, ?_⟩
            · exact iff_of_false (by rw [hv]; decide) (fun hc => by linarith [hc.2])
            · exact iff_of_false (by rw [hv]; decide) (fun hc => by linarith [hc.2])
            · exact iff_of_false (by rw [hv]; decide) (fun hc => by linarith [hc.2])
            · exact iff_of_false (by rw [hv]; decide) (fun hc => by linarith [hc.2])
            · exact iff_of_false (by rw [hv]; decide) (fun hc => by linarith [hc])
          · have hv : rango x = some 5 := by
              unfold rango
              rw [if_neg h0, if_neg h1, if_neg h2, if_neg h3, if_neg h4, if_neg h5]
            refine ⟨⟨5, hv⟩, huniq, ?_, ?_, ?_, ?_, ?_, iff_of_true hv (by linarith)⟩
            · exact iff_of_false (by rw [hv]; decide) (fun hc => by linarith [hc.2])
            · exact iff_of_false (by rw [hv]; decide) (fun hc => by linarith [hc.2])
            · exact iff_of_false (by rw [hv]; decide) (fun hc => by linarith [hc.2])
            · exact iff_of_false (by rw [hv]; decide) (fun hc => by linarith [hc.2])
            · exact iff_of_false (by rw [hv]; decide) (fun hc => by linarith [hc.2])

/-- C6, witness: the amount 4000 falls in the second bin. -/
theorem c6_witness : rango 4000 = some 1 :=
  ((c6_amended 4000 (by norm_num)).2.2.2.1).mpr (by norm_num)

/-- A raw parquet row fixture with the given origination-date text. -/
def demoRaw (fa : Option String) : RawRow :=
  { fecha_apertura := fa
    fpd2 := some "FPD"
    np := none
    id_credito := 1
    id_segmento := "S1"
    id_producto := "P1"
    origen2 := some "WEB"
    monto_otorgado := some 1000
    cuota := some 100
    tipo_cliente := some "Nuevo"
    sucursal := some "A1"
    unidad_regional := some "A"
    producto_agrupado := some "PRESTAMO" }

/-- C7: a record whose non-NULL origination-date text is malformed or an
impossible date makes the loading query raise (DuckDB's `strptime`
throws; the source's `TRY_CAST` guards only the timestamp-to-date cast),
instead of being silently excluded; only a NULL date is dropped without
an error. -/
theorem c7_malformed_date_raises :
    getMainData [] [] [] [] [demoRaw (some "32/01/2024")] =
      Except.error "Could not parse string 32/01/2024" ∧
    getMainData [] [] [] [] [demoRaw (some "")] =
      Except.error "Could not parse string " ∧
    (getMainData [] [] [] [] [demoRaw none, demoRaw (some "10/03/2024")]).map
      (List.map MainRow.cosechaId) = Except.ok [202403] := by
  decide

/-- C8, counterexample: the export's cosecha choices include the maximum
cosecha of the loaded data; choosing it exports its defaulted record,
which the maturity working set `df_fpd` excludes — so the export is not
restricted to mature records. -/
theorem c8_counterexample :
    listaExport demoTwo = [202402, 202401] ∧
    dfExp 202402 demoTwo = [exportCols (demoMain 2024 2 10 true "B")] ∧
    demoMain 2024 2 10 true "B" ∉ dfFpd demoTwo := by
  decide

/-- C8, amended: for a chosen cosecha the export holds exactly the
loaded (`df_main`, not maturity-filtered) records of that cosecha whose
outcome flag equals 'FPD', projected to the fixed column subset, and is
serialized as newline-separated comma-delimited text with a header. -/
theorem c8_amended (c : Nat) (main : List MainRow) (x : ExpRow) :
    (x ∈ dfExp c main ↔
      ∃ r, r ∈ main ∧ MainRow.cosechaId r = c ∧ r.fpd2 = some "FPD" ∧ exportCols r = x) ∧
    toCsv (dfExp c main) =
      String.intercalate "\x0a" (expHeader :: (dfExp c main).map expLine) := by
  constructor
  · rw [dfExp]
    constructor
    · intro hx
      rcases List.mem_map.mp hx with ⟨r, hr, rfl⟩
      rw [List.mem_filter] at hr
      obtain ⟨hrm, hcond⟩ := hr
      rw [Bool.and_eq_true, decide_eq_true_eq, beq_iff_eq] at hcond
      exact ⟨r, hrm, hcond.1, hcond.2, rfl⟩
    · rintro ⟨r, hrm, hcc, hfpd, rfl⟩
      refine List.mem_map.mpr ⟨r, List.mem_filter.mpr ⟨hrm, ?_⟩, rfl⟩
      rw [Bool.and_eq_true, decide_eq_true_eq, beq_iff_eq]
      exact ⟨hcc, hfpd⟩
  · rfl

/-- The raw dataset of the executive counterexample: one defaulted
record of region A, cosecha 2024-01, and one record of region B,
cosecha 2024-02. -/
def c9rows : List RawRow :=
  [demoRaw (some "10/01/2024"),
    { demoRaw (some "10/02/2024") with
        fpd2 := none, id_credito := 2, sucursal := some "B1", unidad_regional := some "B" }]

/-- The parsed main data of `c9rows` under empty selections (and under
the selection of both regions). -/
def c9main : List MainRow :=
  [⟨⟨2024, 1, 10⟩, some "FPD", none, 1, "S1", "P1", some "WEB", some 1000, some 100,
      "Nuevo", "A1", "A", "PRESTAMO"⟩,
    ⟨⟨2024, 2, 10⟩, none, none, 2, "S1", "P1", some "WEB", some 1000, some 100,
      "Nuevo", "B1", "B", "PRESTAMO"⟩]

/-- C9, counterexample: two sidebar selections (no restriction; region A
only) give the loaded data different maximum cosechas, and the executive
block — truncated at that maximum — renders different output, so the
executive summary is not independent of the dimensional filters. -/
theorem c9_counterexample :
    (getMainData [] [] [] [] c9rows).map maxCosecha = Except.ok 202402 ∧
    (getMainData ["A"] [] [] [] c9rows).map maxCosecha = Except.ok 202401 ∧
    dfE selRegional c9rows 202402 ≠ dfE selRegional c9rows 202401 := by
  decide

/-- C9, amended: the executive query itself takes no dimensional
selection and excludes NOMINA product groups and the
'999.EMPRESA NOMINA COLABORADORES' branch (exclusions the main query
applies nowhere: its empty-selection clause passes every row); but the
rendered executive block depends on the sidebar selections through the
`cosecha_id < max_c_real` cutoff, whose bound is the maximum cosecha of
the filtered main data, so only selections preserving that maximum give
identical executive output. -/
theorem c9_amended (fld : RawRow → Option String) (rows : List RawRow)
    (r1 s1 p1 t1 r2 s2 p2 t2 : List String) (m1 m2 : List MainRow)
    (_h1 : getMainData r1 s1 p1 t1 rows = Except.ok m1)
    (_h2 : getMainData r2 s2 p2 t2 rows = Except.ok m2)
    (hmax : maxCosecha m1 = maxCosecha m2) :
    dfE fld rows (maxCosecha m1) = dfE fld rows (maxCosecha m2) ∧
    (∀ r : RawRow, ∀ p, r.producto_agrupado = some p → containsNomina p = true →
      execKeep r = false) ∧
    (∀ r : RawRow, r.sucursal = some "999.EMPRESA NOMINA COLABORADORES" →
      execKeep r = false) ∧
    (∀ b : BaseRow, passDims [] [] [] [] b = true) := by
  refine ⟨by rw [hmax], ?_, ?_, fun b => rfl⟩
  · intro r p hp hn
    unfold execKeep
    rw [hp]
    cases hs : r.sucursal
    · rfl
    · simp [hn]
  · intro r hs
    unfold execKeep
    rw [hs]
    cases hp : r.producto_agrupado
    · rfl
    · simp

/-- C9, witness: the no-restriction selection and the selection of both
regions load the same main data, so the executive block renders the same
output for both. -/
theorem c9_witness :
    dfE selRegional c9rows (maxCosecha c9main) =
      dfE selRegional c9rows (maxCosecha c9main) :=
  (c9_amended selRegional c9rows [] [] [] [] ["A", "B"] [] [] [] c9main c9main
    (by decide) (by decide) rfl).1
